import Mathlib

/-!
Verification of the authentication subsystem of the repository
(src/auth/authService.ts, AuthCallback.tsx, AuthContext.tsx, Login.tsx,
ProtectedRoute.tsx, SilentRenew.tsx) against its natural-language
specification.

The TypeScript source is shallowly embedded: promises whose results depend
on the outside world (the identity provider, the persisted store observed
at a suspension point) are parametrized by an explicit outcome argument;
browser side effects (navigation, sessionStorage reads/writes, console
logging) become events collected in lists or explicit state passing.
-/

/-- The stored user record, the shape the code reads from the persisted
session store (`oidc-client-ts` `User`): an opaque access token, an
absolute expiry timestamp in epoch seconds, and the subject claim. -/
structure User where
  access_token : String
  expires_at : Nat
  profile_sub : String
deriving DecidableEq

/-- Modelled from the spec: the `expired` flag of a stored user is provided
by the protocol library (`oidc-client-ts`), whose code is not part of this
repository.  The spec defines `isAuthenticated() → true iff a Session
exists and now < expiresAt`, with the boundary `now = expiresAt` counting
as expired, so `expired` holds exactly when `expiresAt ≤ now`. -/
def User.expired (u : User) (now : Nat) : Bool :=
  decide (u.expires_at ≤ now)

namespace AuthService

/-- `authService.getUser()` (SilentRenew.tsx lines 264-271): returns the
stored user; any error from the store read is caught and converted to
`null`.  The argument is the outcome of the awaited store read. -/
def getUser (res : Except String (Option User)) : Option User :=
  match res with
  | .ok u => u
  | .error _ => none

/-- `authService.isAuthenticated()` (SilentRenew.tsx lines 280-283):
`user !== null && !user.expired`.  The same formula is used by the
AuthContext provider (AuthCallback.tsx lines 363-370). -/
def isAuthenticated (res : Except String (Option User)) (now : Nat) : Bool :=
  match getUser res with
  | some u => !(u.expired now)
  | none => false

/-- `authService.getAccessToken()` (SilentRenew.tsx lines 294-297):
`user?.access_token || null`.  A missing user gives `null`; JavaScript's
`||` also turns an empty-string token into `null`.  Note that, unlike
`isAuthenticated`, this function never consults the expiry. -/
def getAccessToken (res : Except String (Option User)) : Option String :=
  match getUser res with
  | none => none
  | some u => if u.access_token = "" then none else some u.access_token

end AuthService

/-- C3: `isAuthenticated()` returns true if and only if a stored user
exists and the current time is strictly before `expires_at`; at the
boundary `now = expires_at` the session counts as expired and
`isAuthenticated()` returns false. -/
theorem isAuthenticated_iff_session_not_expired (s : Option User) (now : Nat) :
    (AuthService.isAuthenticated (.ok s) now = true ↔
      ∃ u, s = some u ∧ now < u.expires_at) ∧
    (∀ u : User, AuthService.isAuthenticated (.ok (some u)) u.expires_at = false) := by
  constructor
  · cases s with
    | none =>
        simp [AuthService.isAuthenticated, AuthService.getUser]
    | some u =>
        simp [AuthService.isAuthenticated, AuthService.getUser, User.expired]
  · intro u
    simp [AuthService.isAuthenticated, AuthService.getUser, User.expired]

/-- C4 (code bug): `getAccessToken()` returns the stored access token even
when the session is expired.  With a stored user whose token expired at
time 100, at time 150 `isAuthenticated()` is false yet `getAccessToken()`
still returns the token, contradicting both the claim and the function's
own doc comment ("Returns null if no user or token expired"). -/
theorem getAccessToken_returns_token_for_expired_session :
    AuthService.isAuthenticated
        (.ok (some ⟨"tok", 100, "u1"⟩)) 150 = false ∧
    AuthService.getAccessToken
        (.ok (some ⟨"tok", 100, "u1"⟩)) = some "tok" := by
  decide

/-- Substring containment on character lists, the semantics of JavaScript's
`String.prototype.includes` used at AuthCallback.tsx line 109. -/
def charsIncludes (pat : List Char) : List Char → Bool
  | [] => pat.isEmpty
  | c :: rest => pat.isPrefixOf (c :: rest) || charsIncludes pat rest

/-- `s.includes(pat)` for strings. -/
def strIncludes (s pat : String) : Bool :=
  charsIncludes pat.data s.data

/-- An error rejected by a suspension point of the callback flow.
`message` is the JavaScript error's message.  The `isCallbackAlreadyConsumed`
flag is modelled from the spec: the spec's error taxonomy (§7) distinguishes
a `CallbackAlreadyConsumedError` class, but the source has no such class and
never inspects any classification beyond message substrings - the flag
exists so claims about that taxonomy can be stated, and no embedded code
path reads it. -/
structure AuthError where
  message : String
  isCallbackAlreadyConsumed : Bool
deriving DecidableEq

/-- The resolved outcomes of the awaited calls inside one run of
`completeAuthentication` (AuthCallback.tsx lines 68-130).  Each
`isAuthenticated()` call is a separate suspension point reading shared
state that concurrent activity may have changed, so each result is a
separate field. -/
structure CallbackEnv where
  exchange : Except AuthError Unit
  isAuthAfterDelay : Bool
  isAuthInCatch : Bool
  isAuthAfterWait : Bool

/-- Atomic observable actions of one callback-handler run.
`consumeAndNavigate` is the read-remove-navigate triple on
`sessionStorage['returnUrl']` (AuthCallback.tsx lines 85-88, 101-103,
115-117); `navigateHome` is the delayed `navigate('/')` of the error
branch (lines 125-127). -/
inductive CbEvent where
  | exchangeCall
  | waitMs (n : Nat)
  | authCheck (result : Bool)
  | consumeAndNavigate
  | showError (msg : String)
  | navigateHome
deriving DecidableEq

/-- Shared browser state touched by callback-handler events. -/
structure CbState where
  returnUrl : Option String
  navs : List String
  shownErrors : List String
  exchanges : Nat
deriving DecidableEq

/-- Effect of one event on the shared state. -/
def applyEvent (sh : CbState) (e : CbEvent) : CbState :=
  match e with
  | .exchangeCall => ⟨sh.returnUrl, sh.navs, sh.shownErrors, sh.exchanges + 1⟩
  | .waitMs _ => sh
  | .authCheck _ => sh
  | .consumeAndNavigate =>
      ⟨none, sh.navs ++ [sh.returnUrl.getD "/"], sh.shownErrors, sh.exchanges⟩
  | .showError m => ⟨sh.returnUrl, sh.navs, sh.shownErrors ++ [m], sh.exchanges⟩
  | .navigateHome => ⟨sh.returnUrl, sh.navs ++ ["/"], sh.shownErrors, sh.exchanges⟩

/-- Run a list of events left to right. -/
def runEvents (p : List CbEvent) (sh : CbState) : CbState :=
  p.foldl applyEvent sh

/-- The catch block of `completeAuthentication` (AuthCallback.tsx lines
89-128), as the sequence of events one run performs given the caught
error's message and the resolved auth-check outcomes: re-check
`isAuthenticated()`; if true, consume the return URL and navigate; if
false, only when the message contains the substring "state" or "already"
wait 500 ms and re-check once more; otherwise (or if the re-check still
fails) show the error and navigate home after 3000 ms. -/
def catchProgram (msg : String) (env : CallbackEnv) : List CbEvent :=
  CbEvent.authCheck env.isAuthInCatch ::
  if env.isAuthInCatch then
    [CbEvent.consumeAndNavigate]
  else if strIncludes msg "state" || strIncludes msg "already" then
    CbEvent.waitMs 500 :: CbEvent.authCheck env.isAuthAfterWait ::
    (if env.isAuthAfterWait then
      [CbEvent.consumeAndNavigate]
    else
      [CbEvent.showError msg, CbEvent.waitMs 3000, CbEvent.navigateHome])
  else
    [CbEvent.showError msg, CbEvent.waitMs 3000, CbEvent.navigateHome]

/-- One run of `completeAuthentication` (AuthCallback.tsx lines 68-130):
call `completeLogin()`; on success wait 200 ms and verify
`isAuthenticated()`, throwing `Error('Authentication verification failed')`
into the catch block when the verification fails; on any rejection run the
catch block on the error's message. -/
def callbackProgram (env : CallbackEnv) : List CbEvent :=
  CbEvent.exchangeCall ::
  match env.exchange with
  | .ok _ =>
      CbEvent.waitMs 200 :: CbEvent.authCheck env.isAuthAfterDelay ::
      (if env.isAuthAfterDelay then
        [CbEvent.consumeAndNavigate]
      else
        catchProgram "Authentication verification failed" env)
  | .error e => catchProgram e.message env

/-- C2 counterexample: `completeLogin` rejects with a duplicate-consumption
error whose message is "Duplicate callback detected" (it contains neither
"state" nor "already"); the immediate `isAuthenticated()` re-check is false
and a wait-then-recheck would find the session (isAuthAfterWait = true).
The claim requires exactly one bounded wait-then-recheck driven by session
existence, but the code performs no wait and no second check - it surfaces
the failure at once, because its decision matches message substrings. -/
theorem catch_duplicate_error_substring_counterexample :
    (AuthError.mk "Duplicate callback detected" true).isCallbackAlreadyConsumed
      = true ∧
    catchProgram "Duplicate callback detected"
        ⟨.error ⟨"Duplicate callback detected", true⟩, false, false, true⟩ =
      [CbEvent.authCheck false, CbEvent.showError "Duplicate callback detected",
       CbEvent.waitMs 3000, CbEvent.navigateHome] ∧
    (runEvents
        (catchProgram "Duplicate callback detected"
          ⟨.error ⟨"Duplicate callback detected", true⟩, false, false, true⟩)
        ⟨some "/dashboard", [], [], 0⟩).navs = ["/"] := by
  decide

/-- C2 (amended): when `completeLogin` fails, the catch block re-checks
`isAuthenticated()`; if true it proceeds exactly as the success path
(consume the return URL and navigate); if false, the single 500 ms
wait-then-recheck is applied only when the error message contains the
substring "state" or "already", and otherwise - whatever the error's
classification - the failure is surfaced immediately. -/
theorem catch_block_substring_gated_recovery (e : AuthError) (env : CallbackEnv) :
    (env.isAuthInCatch = true →
      catchProgram e.message env =
        [CbEvent.authCheck true, CbEvent.consumeAndNavigate]) ∧
    (env.isAuthInCatch = false →
      (strIncludes e.message "state" || strIncludes e.message "already") = true →
      env.isAuthAfterWait = true →
      catchProgram e.message env =
        [CbEvent.authCheck false, CbEvent.waitMs 500, CbEvent.authCheck true,
         CbEvent.consumeAndNavigate]) ∧
    (env.isAuthInCatch = false →
      (strIncludes e.message "state" || strIncludes e.message "already") = true →
      env.isAuthAfterWait = false →
      catchProgram e.message env =
        [CbEvent.authCheck false, CbEvent.waitMs 500, CbEvent.authCheck false,
         CbEvent.showError e.message, CbEvent.waitMs 3000, CbEvent.navigateHome]) ∧
    (env.isAuthInCatch = false →
      (strIncludes e.message "state" || strIncludes e.message "already") = false →
      catchProgram e.message env =
        [CbEvent.authCheck false, CbEvent.showError e.message,
         CbEvent.waitMs 3000, CbEvent.navigateHome]) := by
  refine ⟨?_, ?_, ?_, ?_⟩
  · intro h1
    simp [catchProgram, h1]
  · intro h1 h2 h3
    simp [catchProgram, h1, h2, h3]
  · intro h1 h2 h3
    simp [catchProgram, h1, h2, h3]
  · intro h1 h2
    simp [catchProgram, h1, h2]

/-- C2 witness: a duplicate-consumption rejection whose message does
contain "state", with the session visible only at the delayed re-check,
recovers and navigates. -/
theorem catch_block_substring_gated_recovery_witness :
    catchProgram "No matching state found in storage"
        ⟨.error ⟨"No matching state found in storage", true⟩, false, false, true⟩ =
      [CbEvent.authCheck false, CbEvent.waitMs 500, CbEvent.authCheck true,
       CbEvent.consumeAndNavigate] :=
  (catch_block_substring_gated_recovery
      ⟨"No matching state found in storage", true⟩
      ⟨.error ⟨"No matching state found in storage", true⟩, false, false, true⟩).2.1
    rfl (by decide) rfl

/-- C10: when `completeLogin` resolves successfully but the 200 ms-delayed
`isAuthenticated()` verification returns false, the handler raises
`Authentication verification failed` into the catch block; with the session
still absent there, it shows the error and navigates to `/`, not to the
stored return destination, which is left unconsumed - so a successful
exchange alone does not guarantee navigation to the return destination. -/
theorem post_success_verification_failure_routes_to_error (r : Option String) :
    callbackProgram ⟨.ok (), false, false, false⟩ =
      [CbEvent.exchangeCall, CbEvent.waitMs 200, CbEvent.authCheck false,
       CbEvent.authCheck false,
       CbEvent.showError "Authentication verification failed",
       CbEvent.waitMs 3000, CbEvent.navigateHome] ∧
    (runEvents (callbackProgram ⟨.ok (), false, false, false⟩)
        ⟨r, [], [], 0⟩).navs = ["/"] ∧
    (runEvents (callbackProgram ⟨.ok (), false, false, false⟩)
        ⟨r, [], [], 0⟩).returnUrl = r := by
  exact ⟨rfl, rfl, rfl⟩

/-- The already-authenticated redirect effect of the login page
(Login.tsx lines 60-70): when `isAuthenticated` is true it reads
`sessionStorage['returnUrl']` (default `/`), removes it, and navigates
there; otherwise it does nothing.  Result: (navigation target if any,
remaining returnUrl). -/
def loginEffect (isAuthenticated : Bool) (r : Option String) :
    Option String × Option String :=
  if isAuthenticated then (some (r.getD "/"), none) else (none, r)

/-- C7 counterexample: the login page's already-authenticated redirect
effect - a consumer distinct from the callback completion path - also
reads and clears the Pending Redirect Context, refuting "read and cleared
... only by the callback completion path". -/
theorem login_effect_consumes_return_url_counterexample :
    loginEffect true (some "/dashboard?x=1") = (some "/dashboard?x=1", none) :=
  rfl

/-- C7 (amended): the Pending Redirect Context is consumed (read and
cleared in one step) by the callback completion path and also by the login
page's already-authenticated redirect effect; each consumer navigates to
the stored destination, defaulting to `/` when it is absent; after a
success-path callback completion the context is empty. -/
theorem return_url_consumers_and_default (r : Option String) (b2 b3 : Bool) :
    (runEvents (callbackProgram ⟨.ok (), true, b2, b3⟩)
        ⟨r, [], [], 0⟩).returnUrl = none ∧
    (runEvents (callbackProgram ⟨.ok (), true, b2, b3⟩)
        ⟨r, [], [], 0⟩).navs = [r.getD "/"] ∧
    loginEffect true r = (some (r.getD "/"), none) ∧
    loginEffect false r = (none, r) := by
  exact ⟨rfl, rfl, rfl, rfl⟩

/-- The navigational target seen by the Access Guard
(`useLocation()` pathname and search). -/
structure RouteLocation where
  pathname : String
  search : String

/-- What `ProtectedRoute` renders. -/
inductive RouteRender where
  | loading
  | redirectToLogin
  | content
deriving DecidableEq

/-- The full observable effect of one `ProtectedRoute` evaluation. -/
structure RouteEffect where
  render : RouteRender
  returnUrl : Option String
  protocolClientCalls : List String
deriving DecidableEq

/-- `ProtectedRoute` (Login.tsx lines 235-289): while loading show a
spinner; when unauthenticated write `location.pathname + location.search`
to `sessionStorage['returnUrl']` and redirect to `/login`; otherwise
render the protected children.  The component reads only the AuthContext
state and issues no authService / protocol-client call in any branch. -/
def protectedRoute (isLoading isAuthenticated : Bool) (loc : RouteLocation)
    (r : Option String) : RouteEffect :=
  if isLoading then ⟨.loading, r, []⟩
  else if !isAuthenticated then
    ⟨.redirectToLogin, some (loc.pathname ++ loc.search), []⟩
  else ⟨.content, r, []⟩

/-- C8: for every unauthenticated access (loading finished) to a protected
target, the Access Guard persists exactly the attempted path plus query
string, redirects to the login entry point, does not render the protected
content, and in no branch issues a Protocol Client call. -/
theorem protected_route_unauthenticated_redirects (loc : RouteLocation)
    (r : Option String) :
    protectedRoute false false loc r =
      ⟨RouteRender.redirectToLogin, some (loc.pathname ++ loc.search), []⟩ ∧
    (protectedRoute false false loc r).render ≠ RouteRender.content ∧
    (∀ il ia : Bool, (protectedRoute il ia loc r).protocolClientCalls = []) := by
  refine ⟨rfl, ?_, ?_⟩
  · intro hc
    simp [protectedRoute] at hc
  · intro il ia
    cases il <;> cases ia <;> rfl

/-- Observable steps of the logout redirect flow. -/
inductive LogoutEvent where
  | clearSession
  | navigateEndSession
deriving DecidableEq

/-- Modelled from the spec: `userManager.signoutRedirect()` (the Protocol
Client's end-session operation, `oidc-client-ts` code not in this
repository) "clears the local Session proactively before navigating, then
redirects to the provider's end-session endpoint" (spec §4.1
`beginLogout`). -/
def signoutRedirectProgram : List LogoutEvent :=
  [LogoutEvent.clearSession, LogoutEvent.navigateEndSession]

/-- Run a logout program over the stored session, recording next to every
event the session value at the moment the event is issued. -/
def runLogout : List LogoutEvent → Option User →
    List (LogoutEvent × Option User) × Option User
  | [], st => ([], st)
  | e :: rest, st =>
      let st1 := match e with
        | LogoutEvent.clearSession => none
        | LogoutEvent.navigateEndSession => st
      let res := runLogout rest st1
      ((e, st1) :: res.1, res.2)

/-- `authService.logout()` (SilentRenew.tsx lines 226-235): delegates to
`signoutRedirect` (errors are logged and rethrown; the error path is
treated separately in the `ErrorFlow` development below). -/
def AuthService.logout (st : Option User) :
    List (LogoutEvent × Option User) × Option User :=
  runLogout signoutRedirectProgram st

/-- C5: `logout` first clears the local session and only then issues the
end-session navigation: in the recorded trace the navigation event is
issued with the session already absent, and the final session is absent. -/
theorem logout_clears_session_before_end_session_redirect (st : Option User) :
    AuthService.logout st =
      ([(LogoutEvent.clearSession, none), (LogoutEvent.navigateEndSession, none)],
        none) := by
  rfl

/-- Events fired by the protocol library to which the subsystem registers
handlers. -/
inductive OidcEvent where
  | userLoaded (u : User)
  | userUnloaded
  | silentRenewError (msg : String)
  | accessTokenExpiring
  | accessTokenExpired

/-- Immediate reactions an `authService` event handler can perform. -/
inductive ServiceAction where
  | consoleLog (msg : String)
  | consoleError (msg : String)
  | logoutCall
deriving DecidableEq

/-- The handlers registered by `AuthService.setupEventHandlers`
(SilentRenew.tsx lines 138-171), as the list of actions the registered
handler for each event performs: every handler only logs, except the
`accessTokenExpired` handler, which additionally calls `this.logout()`. -/
def setupEventHandlersDispatch : OidcEvent → List ServiceAction
  | .userLoaded _ => [ServiceAction.consoleLog "User loaded"]
  | .userUnloaded => [ServiceAction.consoleLog "User unloaded"]
  | .silentRenewError msg =>
      [ServiceAction.consoleError ("Silent renew error: " ++ msg)]
  | .accessTokenExpiring => [ServiceAction.consoleLog "Access token expiring..."]
  | .accessTokenExpired =>
      [ServiceAction.consoleLog "Access token expired", ServiceAction.logoutCall]

/-- The AuthContext provider's event handlers (AuthCallback.tsx lines
295-317): `userLoaded` stores the user in React state, `userUnloaded` and
`accessTokenExpired` clear it; no handler is registered for the other
events. -/
def authContextOnEvent : OidcEvent → Option User → Option User
  | .userLoaded u, _ => some u
  | .userUnloaded, _ => none
  | .accessTokenExpired, _ => none
  | .silentRenewError _, s => s
  | .accessTokenExpiring, s => s

/-- The `SilentRenew` component's effect (SilentRenew.tsx lines 48-63):
`completeSilentRenew()` with a `.catch` that only logs. -/
def silentRenewComponentEffect (res : Except String Unit) : List ServiceAction :=
  match res with
  | .ok _ => []
  | .error e => [ServiceAction.consoleError ("Silent renew error: " ++ e)]

/-- C6 counterexample: within the session lifetime that follows a failed
silent renewal, the `accessTokenExpired` handler automatically calls
`logout()`, whose trace issues a browser navigation to the end-session
endpoint - an automatic user-facing action beyond the unauthenticated
state, refuting "no user-facing action beyond the resulting
unauthenticated state within the same session lifetime". -/
theorem renewal_failure_auto_logout_counterexample :
    ServiceAction.logoutCall ∈ setupEventHandlersDispatch OidcEvent.accessTokenExpired ∧
    LogoutEvent.navigateEndSession ∈
      ((AuthService.logout (some ⟨"tok", 100, "u1"⟩)).1.map Prod.fst) := by
  decide

/-- C6 (amended): a failed silent renewal itself only logs - both the
service's `silentRenewError` handler and the `SilentRenew` component's
catch perform no retry and no navigation; the session-cleared report and
the unauthenticated state arrive when the token expires: the
`accessTokenExpired` handler clears the AuthContext session (so
`isAuthenticated()` is false) but also automatically calls `logout()`,
which redirects the browser to the provider's end-session endpoint. -/
theorem renewal_failure_no_retry_then_auto_logout (m e : String)
    (st prev : Option User) (now : Nat) :
    setupEventHandlersDispatch (OidcEvent.silentRenewError m) =
      [ServiceAction.consoleError ("Silent renew error: " ++ m)] ∧
    silentRenewComponentEffect (.error e) =
      [ServiceAction.consoleError ("Silent renew error: " ++ e)] ∧
    setupEventHandlersDispatch OidcEvent.accessTokenExpired =
      [ServiceAction.consoleLog "Access token expired", ServiceAction.logoutCall] ∧
    authContextOnEvent OidcEvent.accessTokenExpired prev = none ∧
    (AuthService.logout st).2 = none ∧
    AuthService.isAuthenticated (.ok (AuthService.logout st).2) now = false := by
  exact ⟨rfl, rfl, rfl, rfl, rfl, rfl⟩

namespace ErrorFlow

/-- `authService.login()` (SilentRenew.tsx lines 182-191): logs and
rethrows its suspension point's rejection. -/
def login (r : Except String Unit) : Except String Unit :=
  match r with
  | .ok _ => .ok ()
  | .error e => .error e

/-- `authService.logout()` error plumbing (SilentRenew.tsx lines 226-235):
logs and rethrows. -/
def logout (r : Except String Unit) : Except String Unit :=
  match r with
  | .ok _ => .ok ()
  | .error e => .error e

/-- `authService.completeSilentRenew()` (SilentRenew.tsx lines 323-330):
logs and rethrows. -/
def completeSilentRenew (r : Except String Unit) : Except String Unit :=
  match r with
  | .ok _ => .ok ()
  | .error e => .error e

/-- The login button handler (Login.tsx lines 81-92): catches every
rejection of `login()` and resumes. -/
def handleLogin (r : Except String Unit) : Except String Unit :=
  match login r with
  | .ok _ => .ok ()
  | .error _ => .ok ()

/-- The `SilentRenew` component (SilentRenew.tsx lines 48-63): calls
`completeSilentRenew()` with a `.catch` that only logs. -/
def silentRenewComponent (r : Except String Unit) : Except String Unit :=
  match completeSilentRenew r with
  | .ok _ => .ok ()
  | .error _ => .ok ()

/-- The `accessTokenExpired` event handler (SilentRenew.tsx lines 167-170):
calls `this.logout()` fire-and-forget, with no catch around it. -/
def onAccessTokenExpired (r : Except String Unit) : Except String Unit :=
  logout r

end ErrorFlow

/-- C9 counterexample: the `accessTokenExpired` handler invokes `logout()`
without catching it, so a rejected end-session redirect (for example a
misconfigured endpoint) escapes the subsystem as an uncaught rejection,
refuting "every suspension point is wrapped with classification logic". -/
theorem access_token_expired_handler_uncaught_counterexample :
    ErrorFlow.onAccessTokenExpired
        (.error "Failed to fetch end session endpoint") =
      .error "Failed to fetch end session endpoint" :=
  rfl

/-- C9 (amended): every entry point of the subsystem except the
`accessTokenExpired` event handler wraps its suspension points: the login
button handler and the silent-renew component swallow every rejection,
`getUser` converts store errors to `null`, and the callback handler
classifies every exchange failure and always terminates in a navigation
event; but the `accessTokenExpired` handler propagates any rejection of
`logout()` uncaught. -/
theorem error_wrapping_except_expired_handler (r : Except String Unit)
    (m : String) (e : AuthError) (b1 b2 b3 : Bool) :
    ErrorFlow.handleLogin r = .ok () ∧
    ErrorFlow.silentRenewComponent r = .ok () ∧
    AuthService.getUser (.error m) = none ∧
    (∃ ev, (callbackProgram ⟨.error e, b1, b2, b3⟩).getLast? = some ev ∧
      (ev = CbEvent.consumeAndNavigate ∨ ev = CbEvent.navigateHome)) ∧
    ErrorFlow.onAccessTokenExpired (.error m) = .error m := by
  refine ⟨?_, ?_, rfl, ?_, rfl⟩
  · cases r <;> rfl
  · cases r <;> rfl
  · simp only [callbackProgram, catchProgram]
    cases b2 <;> simp only [Bool.false_eq_true, if_false, if_true]
    · cases h2 : (strIncludes e.message "state" || strIncludes e.message "already")
      · exact ⟨CbEvent.navigateHome, by simp, Or.inr rfl⟩
      · cases b3
        · exact ⟨CbEvent.navigateHome, by simp, Or.inr rfl⟩
        · exact ⟨CbEvent.consumeAndNavigate, by simp, Or.inl rfl⟩
    · exact ⟨CbEvent.consumeAndNavigate, by simp, Or.inl rfl⟩

/-- The state of one activation (invocation) of the callback handler's
effect: `ready` has not yet executed the guard check (AuthCallback.tsx
lines 58-59); `run p` has passed or skipped the guard and still has the
events `p` to perform. -/
inductive TState where
  | ready (env : CallbackEnv)
  | run (prog : List CbEvent)

/-- Whole-system state for interleaved callback-handler activations: the
shared `hasProcessed` guard ref, the shared browser state, and the
per-activation control state. -/
structure SysState where
  guard : Bool
  cb : CbState
  threads : List TState

/-- Initial state of a callback-route page load: guard unarmed, no
exchange performed, no navigation issued, each activation ready, and the
Pending Redirect Context holding `r0`. -/
def initSystem (r0 : Option String) (envs : List CallbackEnv) : SysState :=
  ⟨false, ⟨r0, [], [], 0⟩, envs.map TState.ready⟩

/-- Interleaving small-step semantics.  The guard check and its set
(`if (hasProcessed.current) return; hasProcessed.current = true;`,
AuthCallback.tsx lines 58-59) are synchronous statements with no
suspension point between them, so they form one atomic step; every other
step executes one event of an activation that passed the guard.  The
scheduler may pick any activation at any step (spec §5: one logical
thread, concurrency only from overlapping asynchronous operations). -/
inductive SysStep : SysState → SysState → Prop where
  | guardHit (l1 l2 : List TState) (env : CallbackEnv) (cbs : CbState) :
      SysStep ⟨true, cbs, l1 ++ TState.ready env :: l2⟩
              ⟨true, cbs, l1 ++ TState.run [] :: l2⟩
  | guardPass (l1 l2 : List TState) (env : CallbackEnv) (cbs : CbState) :
      SysStep ⟨false, cbs, l1 ++ TState.ready env :: l2⟩
              ⟨true, cbs, l1 ++ TState.run (callbackProgram env) :: l2⟩
  | exec (l1 l2 : List TState) (ev : CbEvent) (p : List CbEvent) (g : Bool)
      (cbs : CbState) :
      SysStep ⟨g, cbs, l1 ++ TState.run (ev :: p) :: l2⟩
              ⟨g, applyEvent cbs ev, l1 ++ TState.run p :: l2⟩

/-- Is this event the one-shot exchange call reaching the Protocol
Client? -/
def isExchangeEvent : CbEvent → Bool
  | .exchangeCall => true
  | _ => false

/-- Is this event a browser navigation? -/
def isNavEvent : CbEvent → Bool
  | .consumeAndNavigate => true
  | .navigateHome => true
  | _ => false

/-- Exchange calls an activation can still perform. -/
def tExch : TState → Nat
  | .ready _ => 0
  | .run p => (p.filter isExchangeEvent).length

/-- Navigations an activation can still perform. -/
def tNav : TState → Nat
  | .ready _ => 0
  | .run p => (p.filter isNavEvent).length

/-- Pending exchange calls across all activations. -/
def threadsExch (l : List TState) : Nat := (l.map tExch).sum

/-- Pending navigations across all activations. -/
def threadsNav (l : List TState) : Nat := (l.map tNav).sum

/-- Invariant: before anyone arms the guard nothing has happened and all
activations are still ready; once the guard is armed, the exchanges
already performed plus those still pending never exceed one, and likewise
for navigations. -/
def SysInv (s : SysState) : Prop :=
  (s.guard = false ∧ s.cb.exchanges = 0 ∧ s.cb.navs = [] ∧
    ∀ t ∈ s.threads, ∃ env, t = TState.ready env)
  ∨ (s.guard = true ∧
      s.cb.exchanges + threadsExch s.threads ≤ 1 ∧
      s.cb.navs.length + threadsNav s.threads ≤ 1)

lemma catchProgram_filter_exch (m : String) (env : CallbackEnv) :
    (catchProgram m env).filter isExchangeEvent = [] := by
  unfold catchProgram
  cases h1 : env.isAuthInCatch <;>
    simp only [Bool.false_eq_true, if_false, if_true]
  · cases h2 : (strIncludes m "state" || strIncludes m "already")
    · simp [isExchangeEvent]
    · cases h3 : env.isAuthAfterWait <;> simp [isExchangeEvent]
  · simp [isExchangeEvent]

lemma catchProgram_filter_nav (m : String) (env : CallbackEnv) :
    ((catchProgram m env).filter isNavEvent).length = 1 := by
  unfold catchProgram
  cases h1 : env.isAuthInCatch <;>
    simp only [Bool.false_eq_true, if_false, if_true]
  · cases h2 : (strIncludes m "state" || strIncludes m "already")
    · simp [isNavEvent]
    · cases h3 : env.isAuthAfterWait <;> simp [isNavEvent]
  · simp [isNavEvent]

lemma callbackProgram_exch (env : CallbackEnv) :
    ((callbackProgram env).filter isExchangeEvent).length = 1 := by
  unfold callbackProgram
  cases henv : env.exchange with
  | ok u =>
      cases h1 : env.isAuthAfterDelay <;>
        simp [isExchangeEvent, catchProgram_filter_exch]
  | error e =>
      simp [isExchangeEvent, catchProgram_filter_exch]

lemma callbackProgram_nav (env : CallbackEnv) :
    ((callbackProgram env).filter isNavEvent).length = 1 := by
  unfold callbackProgram
  cases henv : env.exchange with
  | ok u =>
      cases h1 : env.isAuthAfterDelay <;>
        simp [isNavEvent, catchProgram_filter_nav]
  | error e =>
      simp [isNavEvent, catchProgram_filter_nav]

lemma threadsExch_eq_zero_of_ready (l : List TState)
    (h : ∀ t ∈ l, ∃ env, t = TState.ready env) : threadsExch l = 0 := by
  induction l with
  | nil => rfl
  | cons t rest ih =>
      obtain ⟨env, henv⟩ := h t (List.mem_cons_self t rest)
      subst henv
      have := ih (fun t ht => h t (List.mem_cons_of_mem _ ht))
      simp [threadsExch, tExch] at this ⊢
      exact this

lemma threadsNav_eq_zero_of_ready (l : List TState)
    (h : ∀ t ∈ l, ∃ env, t = TState.ready env) : threadsNav l = 0 := by
  induction l with
  | nil => rfl
  | cons t rest ih =>
      obtain ⟨env, henv⟩ := h t (List.mem_cons_self t rest)
      subst henv
      have := ih (fun t ht => h t (List.mem_cons_of_mem _ ht))
      simp [threadsNav, tNav] at this ⊢
      exact this


lemma threadsExch_append (l1 l2 : List TState) (t : TState) :
    threadsExch (l1 ++ t :: l2) = threadsExch l1 + tExch t + threadsExch l2 := by
  simp [threadsExch, List.map_append, List.sum_append]
  omega

lemma threadsNav_append (l1 l2 : List TState) (t : TState) :
    threadsNav (l1 ++ t :: l2) = threadsNav l1 + tNav t + threadsNav l2 := by
  simp [threadsNav, List.map_append, List.sum_append]
  omega

lemma filter_cons_length_exch (ev : CbEvent) (p : List CbEvent) :
    ((ev :: p).filter isExchangeEvent).length =
      (if isExchangeEvent ev then 1 else 0) + (p.filter isExchangeEvent).length := by
  cases hev : isExchangeEvent ev <;> simp [List.filter, hev]
  omega

lemma filter_cons_length_nav (ev : CbEvent) (p : List CbEvent) :
    ((ev :: p).filter isNavEvent).length =
      (if isNavEvent ev then 1 else 0) + (p.filter isNavEvent).length := by
  cases hev : isNavEvent ev <;> simp [List.filter, hev]
  omega

lemma sysInv_step {s1 s2 : SysState} (h : SysStep s1 s2) (hinv : SysInv s1) :
    SysInv s2 := by
  cases h with
  | guardHit l1 l2 env cbs =>
      rcases hinv with ⟨hg, _⟩ | ⟨_, he, hn⟩
      · exact absurd hg (by simp)
      · right
        dsimp only [SysInv] at he hn ⊢
        rw [threadsExch_append] at he
        rw [threadsNav_append] at hn
        rw [threadsExch_append, threadsNav_append]
        refine ⟨rfl, ?_, ?_⟩ <;> simp only [tExch, tNav] at he hn ⊢ <;>
          simp only [List.filter, List.length_nil] at he hn ⊢ <;> omega
  | guardPass l1 l2 env cbs =>
      rcases hinv with ⟨_, he, hn, hready⟩ | ⟨hg, _⟩
      · right
        dsimp only at he hn ⊢
        have hl1e : threadsExch l1 = 0 :=
          threadsExch_eq_zero_of_ready l1 (fun t ht => hready t (by simp [ht]))
        have hl2e : threadsExch l2 = 0 :=
          threadsExch_eq_zero_of_ready l2 (fun t ht => hready t (by simp [ht]))
        have hl1n : threadsNav l1 = 0 :=
          threadsNav_eq_zero_of_ready l1 (fun t ht => hready t (by simp [ht]))
        have hl2n : threadsNav l2 = 0 :=
          threadsNav_eq_zero_of_ready l2 (fun t ht => hready t (by simp [ht]))
        have hpe := callbackProgram_exch env
        have hpn := callbackProgram_nav env
        rw [threadsExch_append, threadsNav_append]
        refine ⟨rfl, ?_, ?_⟩ <;>
          simp only [tExch, tNav, he, hn, List.length_nil] <;> omega
      · exact absurd hg (by simp)
  | exec l1 l2 ev p g cbs =>
      rcases hinv with ⟨hg, he, hn, hready⟩ | ⟨hg, he, hn⟩
      · exfalso
        obtain ⟨env, henv⟩ := hready (TState.run (ev :: p)) (by simp)
        exact TState.noConfusion henv
      · right
        subst hg
        dsimp only at he hn ⊢
        rw [threadsExch_append] at he
        rw [threadsNav_append] at hn
        rw [threadsExch_append, threadsNav_append]
        simp only [tExch, tNav, filter_cons_length_exch, filter_cons_length_nav]
          at he hn
        refine ⟨rfl, ?_, ?_⟩ <;>
          cases ev <;>
            simp only [applyEvent, isExchangeEvent, isNavEvent, tExch, tNav,
              List.length_append, List.length_cons, List.length_nil,
              if_true, if_false] at he hn ⊢ <;>
            omega

lemma sysInv_init (r0 : Option String) (envs : List CallbackEnv) :
    SysInv (initSystem r0 envs) := by
  left
  refine ⟨rfl, rfl, rfl, ?_⟩
  intro t ht
  simp only [initSystem, List.mem_map] at ht
  obtain ⟨env, _, henv⟩ := ht
  exact ⟨env, henv.symm⟩

lemma sysInv_reachable {r0 : Option String} {envs : List CallbackEnv}
    {s : SysState}
    (h : Relation.ReflTransGen SysStep (initSystem r0 envs) s) : SysInv s := by
  induction h with
  | refl => exact sysInv_init r0 envs
  | tail hsteps hstep ih => exact sysInv_step hstep ih

lemma length_le_one_all_eq {α : Type} {l : List α} (h : l.length ≤ 1) :
    ∀ a ∈ l, ∀ b ∈ l, a = b := by
  match l with
  | [] => intro a ha; cases ha
  | [x] =>
      intro a ha b hb
      simp only [List.mem_singleton] at ha hb
      rw [ha, hb]
  | x :: y :: rest => simp at h

/-- C1: for every number of interleaved activations of the login-callback
handler on one callback-route page load (all carrying the same
authorization code), in every reachable state of the interleaving
semantics at most one exchange call has reached the Protocol Client, and
all navigations that have been issued target the same destination. -/
theorem callback_exchange_once_and_nav_agree (r0 : Option String)
    (envs : List CallbackEnv) (s : SysState)
    (h : Relation.ReflTransGen SysStep (initSystem r0 envs) s) :
    s.cb.exchanges ≤ 1 ∧
    ∀ d1 ∈ s.cb.navs, ∀ d2 ∈ s.cb.navs, d1 = d2 := by
  have hinv := sysInv_reachable h
  rcases hinv with ⟨_, he, hn, _⟩ | ⟨_, he, hn⟩
  · refine ⟨by omega, ?_⟩
    rw [hn]
    intro a ha
    cases ha
  · exact ⟨by omega, length_le_one_all_eq (by omega)⟩

/-- Environment for the witness trace: the exchange succeeds and every
auth check sees the stored session. -/
def envW : CallbackEnv := ⟨.ok (), true, true, true⟩

/-- Final state of the witness trace: two activations, one exchange, one
navigation to the stored destination. -/
def sysW : SysState :=
  ⟨true, ⟨none, ["/dash"], [], 1⟩, [TState.run [], TState.run []]⟩

/-- C1 witness: a concrete interleaving of two activations - the first
passes the guard, performs the exchange and navigates to the stored
destination, the second then hits the armed guard and stops - reaches a
state with one exchange and agreeing navigations. -/
theorem callback_exchange_once_and_nav_agree_witness :
    sysW.cb.exchanges ≤ 1 ∧
    ∀ d1 ∈ sysW.cb.navs, ∀ d2 ∈ sysW.cb.navs, d1 = d2 :=
  callback_exchange_once_and_nav_agree (some "/dash") [envW, envW] sysW
    (by
      have h1 := SysStep.guardPass [] [TState.ready envW] envW
        ⟨some "/dash", [], [], 0⟩
      have h2 := SysStep.exec [] [TState.ready envW] CbEvent.exchangeCall
        [CbEvent.waitMs 200, CbEvent.authCheck true, CbEvent.consumeAndNavigate]
        true ⟨some "/dash", [], [], 0⟩
      have h3 := SysStep.exec [] [TState.ready envW] (CbEvent.waitMs 200)
        [CbEvent.authCheck true, CbEvent.consumeAndNavigate]
        true ⟨some "/dash", [], [], 1⟩
      have h4 := SysStep.exec [] [TState.ready envW] (CbEvent.authCheck true)
        [CbEvent.consumeAndNavigate]
        true ⟨some "/dash", [], [], 1⟩
      have h5 := SysStep.exec [] [TState.ready envW] CbEvent.consumeAndNavigate
        [] true ⟨some "/dash", [], [], 1⟩
      have h6 := SysStep.guardHit [TState.run []] [] envW
        ⟨none, ["/dash"], [], 1⟩
      exact Relation.ReflTransGen.head h1
        (Relation.ReflTransGen.head h2
          (Relation.ReflTransGen.head h3
            (Relation.ReflTransGen.head h4
              (Relation.ReflTransGen.head h5
                (Relation.ReflTransGen.single h6))))))
